import Mathlib

/-!
Verification of the EnergyDashboard CSV ingestion pipeline.

The repository contains two variants of the CSV parser:
* a Netlify serverless function (`netlify/functions/api.ts`): `parseCSVLine`
  (with outer-quote stripping), `parseCSVData` (data rows start at line 7,
  rows need at least 4 columns), local `parseNumber`;
* an Express route module (`server/routes.ts`): `parseCSVLine` (no quote
  stripping), `parseCSVData` (all rows scanned, rows need at least 3 columns
  and a strict `DD/MM/YYYY` leading date, plus a "Data Oggi" fallback for the
  file date), `parseItalianNumber`.

Strings are modelled as `List Char`.  JavaScript numbers that occur in this
pipeline are exact decimal values produced by `parseFloat` on decimal
literals; they are modelled as `DecNum` (an integer mantissa with a power of
ten scale), `NaN` is modelled as `Option.none`, and `DecNum.toRat` interprets
a mantissa and scale as the rational it denotes.  `Infinity` inputs (accepted
by JavaScript `parseFloat`) are modelled as unparseable; this does not affect
any claim because both normalizers in the source map unparseable input to `0`
and every claim's input is finite.
-/

/-- Exact decimal value `num / 10 ^ scale`: the result of JavaScript
`parseFloat` on a decimal literal. -/
structure DecNum where
  num : Int
  scale : Nat
deriving DecidableEq, Repr

/-- The rational denoted by a `DecNum`. -/
def DecNum.toRat (d : DecNum) : ℚ := (d.num : ℚ) / (10 : ℚ) ^ d.scale

/-- ASCII whitespace recognised by JavaScript `trim` and the regex class
`\s` (the non-ASCII Unicode space characters are omitted; all inputs in
scope are ASCII). -/
def isWS (c : Char) : Bool :=
  c = ' ' || c = '\t' || c = '\n' || c = '\r' || c = '\x0B' || c = '\x0C'

/-- JavaScript `String.prototype.trim`. -/
def trimWS (l : List Char) : List Char :=
  ((l.dropWhile isWS).reverse.dropWhile isWS).reverse

/-- JavaScript `String.prototype.split` with a single-character separator:
always returns at least one (possibly empty) segment. -/
def splitOnChar (sep : Char) : List Char → List (List Char)
  | [] => [[]]
  | c :: rest =>
    if c = sep then [] :: splitOnChar sep rest
    else
      match splitOnChar sep rest with
      | [] => [[c]]
      | h :: t => (c :: h) :: t

/-- `csvText.trim().split('\n')` — the common first step of both
`parseCSVData` variants. -/
def splitLines (csvText : List Char) : List (List Char) :=
  splitOnChar '\n' (trimWS csvText)

/-- JavaScript `str.replace(/["\s]/g, '')`: drop every double quote and
whitespace character. -/
def stripQuotesWS (l : List Char) : List Char :=
  l.filter (fun c => !(c = '"' || isWS c))

/-- JavaScript `field.replace(/^"|"$/g, '')`: drop one leading and one
trailing double quote when present (Netlify tokenizer post-process). -/
def stripOuterQuotes (field : List Char) : List Char :=
  let l1 := match field with
    | '"' :: t => t
    | _ => field
  match l1.reverse with
  | '"' :: t => t.reverse
  | _ => l1

/-- Value of a list of decimal digit characters. -/
def natOfDigits (l : List Char) : Nat :=
  l.foldl (fun acc c => acc * 10 + (c.toNat - 48)) 0

/-- The regex test `^\d{1,2}\/\d{1,2}\/\d{4}$` used on the E5 cell and on
the "Data Oggi" cell: exactly two slashes separating a 1-2 digit day, a
1-2 digit month, and a 4 digit year. -/
def isDate112 (l : List Char) : Bool :=
  match splitOnChar '/' l with
  | [d, m, y] =>
    d.all Char.isDigit && m.all Char.isDigit && y.all Char.isDigit &&
    decide (1 ≤ d.length) && decide (d.length ≤ 2) &&
    decide (1 ≤ m.length) && decide (m.length ≤ 2) && decide (y.length = 4)
  | _ => false

/-- The regex test `^\d{2}\/\d{2}\/\d{4}$` used on each data row's leading
column in the Express variant. -/
def isDate224 (l : List Char) : Bool :=
  match splitOnChar '/' l with
  | [d, m, y] =>
    d.all Char.isDigit && m.all Char.isDigit && y.all Char.isDigit &&
    decide (d.length = 2) && decide (m.length = 2) && decide (y.length = 4)
  | _ => false

/-- JavaScript `str.replace(',', '.')` with a string pattern: only the
first comma is rewritten. -/
def replaceFirstComma : List Char → List Char
  | [] => []
  | c :: rest => if c = ',' then '.' :: rest else c :: replaceFirstComma rest

/-- JavaScript `parseFloat` on a decimal string: skip leading whitespace,
an optional sign, a longest prefix `digits [. digits] [e [sign] digits]`;
`none` models `NaN` (no digits found).  `Infinity` is modelled as
unparseable, see the file comment. -/
def parseFloatDec (input : List Char) : Option DecNum :=
  let l := input.dropWhile isWS
  let signRest : Bool × List Char :=
    match l with
    | '-' :: t => (true, t)
    | '+' :: t => (false, t)
    | _ => (false, l)
  let neg := signRest.1
  let l1 := signRest.2
  let intPart := l1.takeWhile Char.isDigit
  let l2 := l1.dropWhile Char.isDigit
  let fracRest : List Char × List Char :=
    match l2 with
    | '.' :: t => (t.takeWhile Char.isDigit, t.dropWhile Char.isDigit)
    | _ => ([], l2)
  let fracPart := fracRest.1
  let l3 := fracRest.2
  if intPart = [] ∧ fracPart = [] then none
  else
    let mantissa : Int := (natOfDigits intPart) * 10 ^ fracPart.length + natOfDigits fracPart
    let mantissa := if neg then -mantissa else mantissa
    let expVal : Int :=
      match l3 with
      | 'e' :: t => parseExpPart t
      | 'E' :: t => parseExpPart t
      | _ => 0
    if 0 ≤ expVal then some ⟨mantissa * 10 ^ expVal.toNat, fracPart.length⟩
    else some ⟨mantissa, fracPart.length + expVal.natAbs⟩
where
  /-- Exponent suffix of a decimal literal: `[+-]? digits`, contributing `0`
  when no digits follow (JavaScript keeps the longest valid prefix). -/
  parseExpPart (t : List Char) : Int :=
    let signRest : Bool × List Char :=
      match t with
      | '-' :: r => (true, r)
      | '+' :: r => (false, r)
      | _ => (false, t)
    let ds := signRest.2.takeWhile Char.isDigit
    if ds = [] then 0
    else if signRest.1 then -(natOfDigits ds : Int) else (natOfDigits ds : Int)

/-- JavaScript `isNaN` on a pipeline number (`none` models `NaN`). -/
def jsIsNaN (x : Option DecNum) : Bool := x.isNone

/-- Netlify `parseNumber` (`netlify/functions/api.ts`): blank input is `0`,
all commas become dots, all whitespace is removed, and a `NaN` parse
degrades to `0`.  `cleaned = str.replace(/,/g, '.').replace(/\s/g, '')`. -/
def numCleaned (s : List Char) : List Char :=
  (s.map (fun c => if c = ',' then '.' else c)).filter (fun c => !(isWS c))

/-- Netlify `parseNumber`: `if (!str || str.trim() === '') return 0; const
num = parseFloat(cleaned); return isNaN(num) ? 0 : num;`. -/
def parseNumber (s : List Char) : DecNum :=
  if s = [] ∨ trimWS s = [] then ⟨0, 0⟩
  else
    match parseFloatDec (numCleaned s) with
    | none => ⟨0, 0⟩
    | some n => n

/-- Express `parseItalianNumber` (`server/routes.ts`), with the JavaScript
number result kept as `Option DecNum` so that its non-`NaN`-ness is a
provable statement rather than a typing artifact: `if (!str) return 0;
cleaned = str.replace(/["\s]/g, ''); if (!cleaned) return 0; normalized =
cleaned.replace(',', '.'); num = parseFloat(normalized); return isNaN(num)
? 0 : num;`. -/
def parseItalianNumberJs (s : List Char) : Option DecNum :=
  if s = [] then some ⟨0, 0⟩
  else
    let cleaned := stripQuotesWS s
    if cleaned = [] then some ⟨0, 0⟩
    else
      let normalized := replaceFirstComma cleaned
      let num := parseFloatDec normalized
      if jsIsNaN num then some ⟨0, 0⟩ else num

/-- Shared scan of both `parseCSVLine` variants: a double quote toggles the
`inQuotes` flag (and is consumed), a comma outside quotes ends the current
field, any other character is appended to the accumulator, and the final
accumulator is flushed at end of line. -/
def csvScan : List Char → Bool → List Char → List (List Char)
  | [], _, current => [current.reverse]
  | c :: rest, inQuotes, current =>
    if c = '"' then csvScan rest (!inQuotes) current
    else if c = ',' ∧ ¬inQuotes then current.reverse :: csvScan rest inQuotes []
    else csvScan rest inQuotes (c :: current)

/-- Express `parseCSVLine` (`server/routes.ts`): the raw scan. -/
def parseCSVLine_express (line : List Char) : List (List Char) :=
  csvScan line false []

/-- Netlify `parseCSVLine` (`netlify/functions/api.ts`): the scan followed
by `field.replace(/^"|"$/g, '')` on every field. -/
def parseCSVLine_netlify (line : List Char) : List (List Char) :=
  (csvScan line false []).map stripOuterQuotes

/-- One parsed observation: `{ date, gas, power }`. -/
structure EnergyRecord where
  date : List Char
  gas : DecNum
  power : DecNum
deriving DecidableEq, Repr

/-- One parse result: `{ fileDate, data }`. -/
structure SheetData where
  fileDate : List Char
  data : List EnergyRecord
deriving DecidableEq, Repr

/-- E5 extraction block shared verbatim by both `parseCSVData` variants
(each calls its own file's `parseCSVLine`, passed here as `tok`):
`if (lines.length >= 5) { columns = parseCSVLine(lines[4]); if
(columns.length >= 5 && columns[4]) { e5Value =
columns[4].replace(/["\s]/g, ''); if (e5Value.match(/^\d{1,2}\/\d{1,2}\/
\d{4}$/)) fileDate = e5Value; } }` — `some` when the assignment fires. -/
def extractE5 (tok : List Char → List (List Char)) (lines : List (List Char)) :
    Option (List Char) :=
  if 5 ≤ lines.length then
    let columns := tok (lines.getD 4 [])
    if 5 ≤ columns.length ∧ columns.getD 4 [] ≠ [] then
      let e5Value := stripQuotesWS (columns.getD 4 [])
      if isDate112 e5Value then some e5Value else none
    else none
  else none

/-- Express "Data Oggi" fallback block (`server/routes.ts`): row 2
(index 1), column D (index 3), same stripping and date test as E5;
`some` when the assignment fires.  The `lines.length >= 2` conjunct of the
source condition lives here; the `fileDate === today` conjunct lives in
`fileDateExpress`. -/
def extractDataOggi (lines : List (List Char)) : Option (List Char) :=
  if 2 ≤ lines.length then
    let columns := parseCSVLine_express (lines.getD 1 [])
    if 4 ≤ columns.length ∧ columns.getD 3 [] ≠ [] then
      let v := stripQuotesWS (columns.getD 3 [])
      if isDate112 v then some v else none
    else none
  else none

/-- Netlify file date: `let fileDate = today` then the E5 block —
equivalently the E5 value when extracted, else `today`. -/
def fileDateNetlify (today : List Char) (lines : List (List Char)) : List Char :=
  (extractE5 parseCSVLine_netlify lines).getD today

/-- Express file date: the E5 block, then `if (fileDate === today &&
lines.length >= 2)` the "Data Oggi" block. -/
def fileDateExpress (today : List Char) (lines : List (List Char)) : List Char :=
  let fd1 := (extractE5 parseCSVLine_express lines).getD today
  if fd1 = today then (extractDataOggi lines).getD fd1 else fd1

/-- Netlify data loop (`for (let i = 6; ...)`, applied to `lines.drop 6`):
`if (!line.trim()) continue; columns = parseCSVLine(line); if
(columns.length < 4 || !columns[0].trim()) continue; data.push({ date:
dateStr.trim(), gas: parseNumber(columns[2]), power:
parseNumber(columns[1]) })`. -/
def dataLoopNetlify : List (List Char) → List EnergyRecord
  | [] => []
  | line :: rest =>
    if trimWS line = [] then dataLoopNetlify rest
    else
      let columns := parseCSVLine_netlify line
      if columns.length < 4 ∨ trimWS (columns.getD 0 []) = [] then
        dataLoopNetlify rest
      else
        { date := trimWS (columns.getD 0 []),
          gas := parseNumber (columns.getD 2 []),
          power := parseNumber (columns.getD 1 []) } :: dataLoopNetlify rest

/-- Express data loop (`for (let i = 0; ...)`): `line = lines[i].trim();
if (!line) continue; columns = parseCSVLine(line); if (columns.length >= 3)
{ if (!dateStr || !dateStr.match(/^\d{2}\/\d{2}\/\d{4}$/)) continue;
gas = parseItalianNumber(columns[1]); power = parseItalianNumber(columns[2]);
if (!isNaN(gas) && !isNaN(power)) data.push({ date: dateStr, gas, power }) }`. -/
def dataLoopExpress : List (List Char) → List EnergyRecord
  | [] => []
  | l :: rest =>
    let line := trimWS l
    if line = [] then dataLoopExpress rest
    else
      let columns := parseCSVLine_express line
      if 3 ≤ columns.length then
        let dateStr := columns.getD 0 []
        if dateStr = [] ∨ isDate224 dateStr = false then dataLoopExpress rest
        else
          let gas := parseItalianNumberJs (columns.getD 1 [])
          let power := parseItalianNumberJs (columns.getD 2 [])
          if jsIsNaN gas = false ∧ jsIsNaN power = false then
            { date := dateStr, gas := gas.getD ⟨0, 0⟩, power := power.getD ⟨0, 0⟩ }
              :: dataLoopExpress rest
          else dataLoopExpress rest
      else dataLoopExpress rest

/-- Netlify `parseCSVData` (`netlify/functions/api.ts`, lines 27-84). -/
def parseCSVData_netlify (today csvText : List Char) : SheetData :=
  let lines := splitLines csvText
  { fileDate := fileDateNetlify today lines,
    data := dataLoopNetlify (lines.drop 6) }

/-- Express `parseCSVData` (`server/routes.ts`, lines 158-230). -/
def parseCSVData_express (today csvText : List Char) : SheetData :=
  let lines := splitLines csvText
  { fileDate := fileDateExpress today lines,
    data := dataLoopExpress lines }

/-- Condition under which the Netlify data loop emits a record for a line:
the line is not blank, at least 4 fields tokenize, and the leading field is
not blank. -/
def netlifyKeeps (line : List Char) : Bool :=
  decide (trimWS line ≠ [] ∧ 4 ≤ (parseCSVLine_netlify line).length ∧
    trimWS ((parseCSVLine_netlify line).getD 0 []) ≠ [])

/-- The record the Netlify data loop emits for a kept line. -/
def netlifyRecordOf (line : List Char) : EnergyRecord :=
  let columns := parseCSVLine_netlify line
  { date := trimWS (columns.getD 0 []),
    gas := parseNumber (columns.getD 2 []),
    power := parseNumber (columns.getD 1 []) }

/-- Condition under which the Express data loop emits a record for a line:
the trimmed line is not empty, at least 3 fields tokenize, and the leading
field is non-empty and matches `^\d{2}\/\d{2}\/\d{4}$` (the `isNaN` guard of
the source is provably always true and so does not appear here). -/
def expressKeeps (l : List Char) : Bool :=
  decide (trimWS l ≠ [] ∧ 3 ≤ (parseCSVLine_express (trimWS l)).length ∧
    (parseCSVLine_express (trimWS l)).getD 0 [] ≠ [] ∧
    isDate224 ((parseCSVLine_express (trimWS l)).getD 0 []) = true)

/-- The record the Express data loop emits for a kept line. -/
def expressRecordOf (l : List Char) : EnergyRecord :=
  let columns := parseCSVLine_express (trimWS l)
  { date := columns.getD 0 [],
    gas := (parseItalianNumberJs (columns.getD 1 [])).getD ⟨0, 0⟩,
    power := (parseItalianNumberJs (columns.getD 2 [])).getD ⟨0, 0⟩ }

/-- Modelled from the claim for comparison: the Express data loop with the
`!isNaN(gas) && !isNaN(power)` guard removed. -/
def dataLoopExpressNoGuard : List (List Char) → List EnergyRecord
  | [] => []
  | l :: rest =>
    let line := trimWS l
    if line = [] then dataLoopExpressNoGuard rest
    else
      let columns := parseCSVLine_express line
      if 3 ≤ columns.length then
        let dateStr := columns.getD 0 []
        if dateStr = [] ∨ isDate224 dateStr = false then dataLoopExpressNoGuard rest
        else
          let gas := parseItalianNumberJs (columns.getD 1 [])
          let power := parseItalianNumberJs (columns.getD 2 [])
          { date := dateStr, gas := gas.getD ⟨0, 0⟩, power := power.getD ⟨0, 0⟩ }
            :: dataLoopExpressNoGuard rest
      else dataLoopExpressNoGuard rest

/-- HTTP method of an inbound request. -/
inductive HttpMethod where
  | GET
  | POST
  | PUT
  | DELETE
  | OPTIONS
deriving DecidableEq, Repr

/-- Outcome of the one outbound fetch, the handler's only effect: a response
with an HTTP status and CSV body text, or a thrown transport error. -/
inductive FetchResult where
  | fetched (status : Nat) (body : List Char)
  | failure (msg : List Char)
deriving DecidableEq, Repr

/-- `response.ok`: status in the 2xx range. -/
def fetchOk (status : Nat) : Bool :=
  decide (200 ≤ status ∧ status < 300)

/-- Body of a handler response, kept structured (JSON serialization is out
of scope): empty, the full parsed snapshot, or an error object with two
string fields (`error`/`details` in the Netlify variant, `message`/`error`
in the Express variant). -/
inductive RespBody where
  | emptyBody
  | snapshot (s : SheetData)
  | errorBody (message details : List Char)
deriving DecidableEq, Repr

/-- A handler response: status code and body. -/
structure JsResponse where
  statusCode : Nat
  body : RespBody
deriving DecidableEq, Repr

/-- Whether `pat` starts the list `l`. -/
def listStartsWith : List Char → List Char → Bool
  | [], _ => true
  | _ :: _, [] => false
  | p :: ps, c :: cs => p = c && listStartsWith ps cs

/-- JavaScript `String.prototype.includes`. -/
def containsSub (pat : List Char) : List Char → Bool
  | [] => pat.isEmpty
  | c :: rest => listStartsWith pat (c :: rest) || containsSub pat rest

/-- Message of the error thrown by the Netlify handler on a non-2xx fetch:
`HTTP error! status: ${status}`. -/
def httpErrorMessage (status : Nat) : List Char :=
  "HTTP error! status: ".toList ++ Nat.toDigits 10 status

/-- Message of the error thrown by the Express route on a non-2xx fetch
(`Failed to fetch Google Sheets data: ${status} ${statusText}`, with the
status text abstracted away). -/
def fetchStatusMessage (status : Nat) : List Char :=
  "Failed to fetch Google Sheets data: ".toList ++ Nat.toDigits 10 status

/-- Zod validation `sheetDataSchema.parse` (`shared/schema.ts`): checks that
`fileDate` is a string and `data` an array of records with string `date` and
numeric `gas`/`power`.  On a value of type `SheetData` every one of those
checks holds by construction, so the validation is the identity embedding
into `Except`. -/
def sheetDataSchemaParse (s : SheetData) : Except (List Char) SheetData :=
  Except.ok s

/-- Netlify `handler` (`netlify/functions/api.ts`, lines 86-152): `OPTIONS`
short-circuits to an empty 200; a path containing `energy-data` with method
`GET` runs fetch-then-parse inside try/catch (a non-2xx status throws, the
catch returns a 500 error object); anything else is a 404. -/
def netlifyHandler (today path : List Char) (method : HttpMethod)
    (fr : FetchResult) : JsResponse :=
  if method = HttpMethod.OPTIONS then ⟨200, RespBody.emptyBody⟩
  else if containsSub "energy-data".toList path ∧ method = HttpMethod.GET then
    match fr with
    | FetchResult.fetched status csv =>
      if fetchOk status then
        ⟨200, RespBody.snapshot (parseCSVData_netlify today csv)⟩
      else
        ⟨500, RespBody.errorBody "Failed to fetch energy data".toList
          (httpErrorMessage status)⟩
    | FetchResult.failure msg =>
      ⟨500, RespBody.errorBody "Failed to fetch energy data".toList msg⟩
  else ⟨404, RespBody.errorBody "Not found".toList []⟩

/-- Express `GET /api/energy-data` route body (`server/routes.ts`, lines
271-290): fetch, throw on non-2xx, parse, validate, `res.json`; the catch
returns a 500 with `{ message, error }`. -/
def expressEnergyHandler (today : List Char) (fr : FetchResult) : JsResponse :=
  match fr with
  | FetchResult.fetched status csv =>
    if fetchOk status then
      match sheetDataSchemaParse (parseCSVData_express today csv) with
      | Except.ok validated => ⟨200, RespBody.snapshot validated⟩
      | Except.error e =>
        ⟨500, RespBody.errorBody
          "Failed to fetch energy data from Google Sheets".toList e⟩
    else
      ⟨500, RespBody.errorBody
        "Failed to fetch energy data from Google Sheets".toList
        (fetchStatusMessage status)⟩
  | FetchResult.failure msg =>
    ⟨500, RespBody.errorBody
      "Failed to fetch energy data from Google Sheets".toList msg⟩


/-- A fixed stand-in for the current-date string (the parser variants take
it as the `today` parameter). -/
def sampleToday : List Char := "11/10/2026".toList

/-- The 8-line end-to-end scenario input of the spec: line 5 carries the E5
date cell, line 7 is the data row `01/01/2024,10,5`, line 8 is blank
commas. -/
def c1Csv : List Char :=
  "header1\nheader2\nheader3\nheader4\n,,,,\"15/03/2024\",,\nx\n01/01/2024,10,5\n,,,".toList

/-- A CSV with no valid E5 cell but a valid date in row 2, column 4 (the
Express "Data Oggi" cell). -/
def c3Csv : List Char := "h1\na,b,c,01/01/2020".toList

/-- A CSV whose only date is a valid E5 cell. -/
def c3CsvA : List Char := "h1\nh2\nh3\nh4\n,,,,15/03/2024".toList

/-- A CSV with no dates anywhere. -/
def c3CsvB : List Char := "h1".toList

/-- A CSV whose E5 cell holds a valid date and whose row 2, column 4 holds a
different valid date. -/
def c10Csv : List Char := "h1\na,b,c,01/01/2020\nh3\nh4\n,,,,15/03/2024".toList

/-- A CSV whose 7th line is a well-formed 4-column data row. -/
def c7Csv : List Char := "a\nb\nc\nd\ne\nf\n01/01/2024,1,2,3".toList

/-! Helper lemmas shared by the claim theorems. -/

/-- An all-whitespace string trims to the empty string. -/
theorem trimWS_of_all_ws (s : List Char) (h : s.all isWS = true) : trimWS s = [] := by
  unfold trimWS
  have h1 : s.dropWhile isWS = [] := by
    rw [List.dropWhile_eq_nil_iff]
    intro x hx
    exact List.all_eq_true.mp h x hx
  rw [h1]
  rfl

/-- An all-whitespace string is erased entirely by `replace(/["\s]/g, '')`. -/
theorem stripQuotesWS_of_all_ws (s : List Char) (h : s.all isWS = true) :
    stripQuotesWS s = [] := by
  unfold stripQuotesWS
  rw [List.filter_eq_nil_iff]
  intro c hc
  have := List.all_eq_true.mp h c hc
  simp [this]

/-- `parseItalianNumber` never returns `NaN`: every branch of the source
returns either a literal `0` or a value that passed the `isNaN` check. -/
theorem parseItalianNumberJs_isSome (s : List Char) :
    (parseItalianNumberJs s).isSome = true := by
  unfold parseItalianNumberJs
  by_cases h1 : s = []
  · simp [h1]
  · simp only [h1, if_false]
    by_cases h2 : stripQuotesWS s = []
    · simp [h2]
    · simp only [h2, if_false]
      cases h : parseFloatDec (replaceFirstComma (stripQuotesWS s)) with
      | none => simp [jsIsNaN, h]
      | some v => simp [jsIsNaN, h]

/-- One step of the Netlify data loop: a line contributes exactly the record
`netlifyRecordOf line` when `netlifyKeeps line`, else nothing. -/
theorem dataLoopNetlify_cons (line : List Char) (rest : List (List Char)) :
    dataLoopNetlify (line :: rest) =
      (if netlifyKeeps line then [netlifyRecordOf line] else []) ++
        dataLoopNetlify rest := by
  have step : dataLoopNetlify (line :: rest) =
      if trimWS line = [] then dataLoopNetlify rest
      else
        if (parseCSVLine_netlify line).length < 4 ∨
            trimWS ((parseCSVLine_netlify line).getD 0 []) = [] then
          dataLoopNetlify rest
        else
          { date := trimWS ((parseCSVLine_netlify line).getD 0 []),
            gas := parseNumber ((parseCSVLine_netlify line).getD 2 []),
            power := parseNumber ((parseCSVLine_netlify line).getD 1 []) } ::
            dataLoopNetlify rest := rfl
  rw [step]
  unfold netlifyKeeps netlifyRecordOf
  simp only [decide_eq_true_eq]
  by_cases h1 : trimWS line = []
  · rw [if_pos h1, if_neg (by simp [h1]), List.nil_append]
  · rw [if_neg h1]
    by_cases h2 : (parseCSVLine_netlify line).length < 4 ∨
        trimWS ((parseCSVLine_netlify line).getD 0 []) = []
    · rw [if_pos h2, if_neg, List.nil_append]
      rintro ⟨-, hlen, hcol⟩
      rcases h2 with h | h
      · omega
      · exact hcol h
    · have h3 : ¬ ((parseCSVLine_netlify line).length < 4 ∨
          trimWS ((parseCSVLine_netlify line).getD 0 []) = []) := h2
      push_neg at h2
      rw [if_neg h3, if_pos ⟨h1, by omega, h2.2⟩, List.singleton_append]

/-- One step of the Express data loop: a line contributes exactly the record
`expressRecordOf l` when `expressKeeps l`, else nothing (the `isNaN` guard of
the source never rejects, by `parseItalianNumberJs_isSome`). -/
theorem dataLoopExpress_cons (l : List Char) (rest : List (List Char)) :
    dataLoopExpress (l :: rest) =
      (if expressKeeps l then [expressRecordOf l] else []) ++
        dataLoopExpress rest := by
  have step : dataLoopExpress (l :: rest) =
      if trimWS l = [] then dataLoopExpress rest
      else
        if 3 ≤ (parseCSVLine_express (trimWS l)).length then
          if (parseCSVLine_express (trimWS l)).getD 0 [] = [] ∨
              isDate224 ((parseCSVLine_express (trimWS l)).getD 0 []) = false then
            dataLoopExpress rest
          else
            if jsIsNaN (parseItalianNumberJs
                  ((parseCSVLine_express (trimWS l)).getD 1 [])) = false ∧
                jsIsNaN (parseItalianNumberJs
                  ((parseCSVLine_express (trimWS l)).getD 2 [])) = false then
              { date := (parseCSVLine_express (trimWS l)).getD 0 [],
                gas := (parseItalianNumberJs
                  ((parseCSVLine_express (trimWS l)).getD 1 [])).getD ⟨0, 0⟩,
                power := (parseItalianNumberJs
                  ((parseCSVLine_express (trimWS l)).getD 2 [])).getD ⟨0, 0⟩ } ::
                dataLoopExpress rest
            else dataLoopExpress rest
        else dataLoopExpress rest := rfl
  rw [step]
  unfold expressKeeps expressRecordOf
  simp only [decide_eq_true_eq]
  have gNaN : ∀ t : List Char, jsIsNaN (parseItalianNumberJs t) = false := by
    intro t
    have h := parseItalianNumberJs_isSome t
    unfold jsIsNaN
    cases hh : parseItalianNumberJs t with
    | none => rw [hh] at h; exact absurd h (by simp)
    | some v => rfl
  by_cases h1 : trimWS l = []
  · rw [if_pos h1, if_neg (by simp [h1]), List.nil_append]
  · rw [if_neg h1]
    by_cases h2 : 3 ≤ (parseCSVLine_express (trimWS l)).length
    · rw [if_pos h2]
      by_cases h3 : (parseCSVLine_express (trimWS l)).getD 0 [] = [] ∨
          isDate224 ((parseCSVLine_express (trimWS l)).getD 0 []) = false
      · rw [if_pos h3, if_neg, List.nil_append]
        rintro ⟨-, -, hcol, hdate⟩
        rcases h3 with h | h
        · exact hcol h
        · rw [hdate] at h; exact absurd h (by simp)
      · have h4 : ¬ ((parseCSVLine_express (trimWS l)).getD 0 [] = [] ∨
            isDate224 ((parseCSVLine_express (trimWS l)).getD 0 []) = false) := h3
        push_neg at h3
        rw [if_neg h4, if_pos ⟨gNaN _, gNaN _⟩,
          if_pos ⟨h1, h2, h3.1, by
            cases hd : isDate224 ((parseCSVLine_express (trimWS l)).getD 0 []) with
            | false => exact absurd hd h3.2
            | true => rfl⟩,
          List.singleton_append]
    · rw [if_neg h2, if_neg (by rintro ⟨-, hlen, -, -⟩; exact h2 hlen), List.nil_append]

/-- Every record the Netlify loop emits has a non-empty date: the kept-row
guard requires the trimmed leading column to be non-empty and the record
stores exactly that trimmed column. -/
theorem date_ne_nil_of_mem_dataLoopNetlify (lines : List (List Char))
    (r : EnergyRecord) (hr : r ∈ dataLoopNetlify lines) : r.date ≠ [] := by
  induction lines with
  | nil => simp [dataLoopNetlify] at hr
  | cons line rest ih =>
    rw [dataLoopNetlify_cons] at hr
    rcases List.mem_append.mp hr with h | h
    · by_cases hk : netlifyKeeps line = true
      · rw [if_pos hk] at h
        have hkp := of_decide_eq_true (by rw [← netlifyKeeps]; exact hk)
        rw [List.mem_singleton] at h
        subst h
        exact hkp.2.2
      · rw [if_neg hk] at h
        exact absurd h (List.not_mem_nil r)
    · exact ih h

/-- Every record the Express loop emits has a non-empty date: the kept-row
guard requires the leading column to be non-empty (and a strict date) and
the record stores exactly that column. -/
theorem date_ne_nil_of_mem_dataLoopExpress (lines : List (List Char))
    (r : EnergyRecord) (hr : r ∈ dataLoopExpress lines) : r.date ≠ [] := by
  induction lines with
  | nil => simp [dataLoopExpress] at hr
  | cons line rest ih =>
    rw [dataLoopExpress_cons] at hr
    rcases List.mem_append.mp hr with h | h
    · by_cases hk : expressKeeps line = true
      · rw [if_pos hk] at h
        have hkp := of_decide_eq_true (by rw [← expressKeeps]; exact hk)
        rw [List.mem_singleton] at h
        subst h
        exact hkp.2.2.1
      · rw [if_neg hk] at h
        exact absurd h (List.not_mem_nil r)
    · exact ih h

/-! Claim theorems. -/

/-- C4: for every input string to either number normalizer, blank or
all-whitespace input yields `0.0`, any input whose normalized form fails to
parse as a number yields `0.0`, and the normalizer never signals failure
(never `NaN`, hence nothing for a caller to catch); in particular the empty
string, a whitespace string and `"abc"` all yield `0.0`. -/
theorem C4_normalizer_total_zero_degradation :
    (∀ s : List Char, s.all isWS = true → (parseNumber s).toRat = 0) ∧
    (∀ s : List Char, s.all isWS = true → parseItalianNumberJs s = some ⟨0, 0⟩) ∧
    (∀ s : List Char, parseFloatDec (numCleaned s) = none → (parseNumber s).toRat = 0) ∧
    (∀ s : List Char, parseFloatDec (replaceFirstComma (stripQuotesWS s)) = none →
      parseItalianNumberJs s = some ⟨0, 0⟩) ∧
    (∀ s : List Char, (parseItalianNumberJs s).isSome = true) ∧
    (DecNum.mk 0 0).toRat = 0 ∧
    (parseNumber "".toList).toRat = 0 ∧
    (parseNumber "   ".toList).toRat = 0 ∧
    (parseNumber "abc".toList).toRat = 0 ∧
    parseItalianNumberJs "".toList = some ⟨0, 0⟩ ∧
    parseItalianNumberJs "   ".toList = some ⟨0, 0⟩ ∧
    parseItalianNumberJs "abc".toList = some ⟨0, 0⟩ := by
  refine ⟨?_, ?_, ?_, ?_, parseItalianNumberJs_isSome, by simp [DecNum.toRat],
    ?_, ?_, ?_, by decide, by decide, by decide⟩
  · intro s h
    unfold parseNumber
    rw [if_pos (Or.inr (trimWS_of_all_ws s h))]
    simp [DecNum.toRat]
  · intro s h
    by_cases hs : s = [] <;>
      simp [parseItalianNumberJs, hs, stripQuotesWS_of_all_ws s h]
  · intro s h
    unfold parseNumber
    by_cases hs : s = [] ∨ trimWS s = []
    · rw [if_pos hs]; simp [DecNum.toRat]
    · rw [if_neg hs, h]; simp [DecNum.toRat]
  · intro s h
    unfold parseItalianNumberJs
    by_cases hs : s = []
    · simp [hs]
    · rw [if_neg hs]
      by_cases hc : stripQuotesWS s = []
      · simp [hc]
      · simp [hc, h, jsIsNaN]
  · rw [show parseNumber "".toList = ⟨0, 0⟩ from by decide]; simp [DecNum.toRat]
  · rw [show parseNumber "   ".toList = ⟨0, 0⟩ from by decide]; simp [DecNum.toRat]
  · rw [show parseNumber "abc".toList = ⟨0, 0⟩ from by decide]; simp [DecNum.toRat]

/-- C4 witness: the general clauses of `C4_normalizer_total_zero_degradation`
applied at the concrete inputs `"  "` (all whitespace) and `"xyz"`
(unparseable). -/
theorem C4_witness :
    (parseNumber "  ".toList).toRat = 0 ∧
    parseItalianNumberJs "  ".toList = some ⟨0, 0⟩ ∧
    (parseNumber "xyz".toList).toRat = 0 ∧
    parseItalianNumberJs "xyz".toList = some ⟨0, 0⟩ :=
  ⟨C4_normalizer_total_zero_degradation.1 _ (by decide),
   C4_normalizer_total_zero_degradation.2.1 _ (by decide),
   C4_normalizer_total_zero_degradation.2.2.1 _ (by decide),
   C4_normalizer_total_zero_degradation.2.2.2.1 _ (by decide)⟩

/-- C5: normalizing `"1.234,56"` yields the literal naive-substitution
result `1.234` (not `1234.56`: no thousands-separator stripping), and
`"12,50"` yields `12.5`, in both normalizer variants. -/
theorem C5_naive_comma_substitution :
    (parseNumber "1.234,56".toList).toRat = 1234 / 1000 ∧
    (parseItalianNumberJs "1.234,56".toList).map DecNum.toRat = some (1234 / 1000) ∧
    (parseNumber "1.234,56".toList).toRat ≠ 123456 / 100 ∧
    (parseItalianNumberJs "1.234,56".toList).map DecNum.toRat ≠ some (123456 / 100) ∧
    (parseNumber "12,50".toList).toRat = 125 / 10 ∧
    (parseItalianNumberJs "12,50".toList).map DecNum.toRat = some (125 / 10) := by
  rw [show parseNumber "1.234,56".toList = ⟨1234, 3⟩ from by decide,
    show parseItalianNumberJs "1.234,56".toList = some ⟨1234, 3⟩ from by decide,
    show parseNumber "12,50".toList = ⟨1250, 2⟩ from by decide,
    show parseItalianNumberJs "12,50".toList = some ⟨1250, 2⟩ from by decide]
  refine ⟨by norm_num [DecNum.toRat], by norm_num [DecNum.toRat], ?_, ?_,
    by norm_num [DecNum.toRat], by norm_num [DecNum.toRat]⟩
  · norm_num [DecNum.toRat]
  · simp only [Option.map_some, ne_eq, Option.some_inj]
    norm_num [DecNum.toRat]

/-- C6: for the input line `a,"b,c",d`, both CSV line tokenizer variants
yield exactly the fields `["a", "b,c", "d"]`: a comma inside a double-quoted
field is never a separator. -/
theorem C6_quoted_comma_not_separator :
    parseCSVLine_netlify "a,\"b,c\",d".toList =
      ["a".toList, "b,c".toList, "d".toList] ∧
    parseCSVLine_express "a,\"b,c\",d".toList =
      ["a".toList, "b,c".toList, "d".toList] := by
  decide

/-- C7: for every CSV input (and any current-date string), every record in
the data sequence returned by either `parseCSVData` variant has a non-empty
date field. -/
theorem C7_records_have_nonempty_date :
    (∀ today csvText : List Char, ∀ r : EnergyRecord,
      r ∈ (parseCSVData_netlify today csvText).data → r.date ≠ []) ∧
    (∀ today csvText : List Char, ∀ r : EnergyRecord,
      r ∈ (parseCSVData_express today csvText).data → r.date ≠ []) := by
  constructor
  · intro today csvText r hr
    exact date_ne_nil_of_mem_dataLoopNetlify _ r hr
  · intro today csvText r hr
    exact date_ne_nil_of_mem_dataLoopExpress _ r hr

/-- C7 witness: `C7_records_have_nonempty_date` applied to a concrete CSV
whose 7th line is `01/01/2024,1,2,3`, kept by both variants. -/
theorem C7_witness :
    (EnergyRecord.mk "01/01/2024".toList ⟨2, 0⟩ ⟨1, 0⟩).date ≠ [] ∧
    (EnergyRecord.mk "01/01/2024".toList ⟨1, 0⟩ ⟨2, 0⟩).date ≠ [] :=
  ⟨C7_records_have_nonempty_date.1 sampleToday c7Csv _ (by decide),
   C7_records_have_nonempty_date.2 sampleToday c7Csv _ (by decide)⟩

/-- C9: `parseItalianNumber` never returns `NaN` (every failed parse is
mapped to `0`), so the `!isNaN(gas) && !isNaN(power)` guard in the Express
row loop is always satisfied and never excludes a row that reaches it: the
loop computes the same records as the same loop with the guard removed. -/
theorem C9_nan_guard_never_rejects :
    (∀ s : List Char, jsIsNaN (parseItalianNumberJs s) = false) ∧
    (∀ lines : List (List Char), dataLoopExpress lines = dataLoopExpressNoGuard lines) := by
  have gNaN : ∀ s : List Char, jsIsNaN (parseItalianNumberJs s) = false := by
    intro s
    have h := parseItalianNumberJs_isSome s
    unfold jsIsNaN
    cases hh : parseItalianNumberJs s with
    | none => rw [hh] at h; exact absurd h (by simp)
    | some v => rfl
  refine ⟨gNaN, ?_⟩
  intro lines
  induction lines with
  | nil => rfl
  | cons l rest ih =>
    have stepG : dataLoopExpress (l :: rest) =
        if trimWS l = [] then dataLoopExpress rest
        else
          if 3 ≤ (parseCSVLine_express (trimWS l)).length then
            if (parseCSVLine_express (trimWS l)).getD 0 [] = [] ∨
                isDate224 ((parseCSVLine_express (trimWS l)).getD 0 []) = false then
              dataLoopExpress rest
            else
              if jsIsNaN (parseItalianNumberJs
                    ((parseCSVLine_express (trimWS l)).getD 1 [])) = false ∧
                  jsIsNaN (parseItalianNumberJs
                    ((parseCSVLine_express (trimWS l)).getD 2 [])) = false then
                { date := (parseCSVLine_express (trimWS l)).getD 0 [],
                  gas := (parseItalianNumberJs
                    ((parseCSVLine_express (trimWS l)).getD 1 [])).getD ⟨0, 0⟩,
                  power := (parseItalianNumberJs
                    ((parseCSVLine_express (trimWS l)).getD 2 [])).getD ⟨0, 0⟩ } ::
                  dataLoopExpress rest
              else dataLoopExpress rest
          else dataLoopExpress rest := rfl
    have stepN : dataLoopExpressNoGuard (l :: rest) =
        if trimWS l = [] then dataLoopExpressNoGuard rest
        else
          if 3 ≤ (parseCSVLine_express (trimWS l)).length then
            if (parseCSVLine_express (trimWS l)).getD 0 [] = [] ∨
                isDate224 ((parseCSVLine_express (trimWS l)).getD 0 []) = false then
              dataLoopExpressNoGuard rest
            else
              { date := (parseCSVLine_express (trimWS l)).getD 0 [],
                gas := (parseItalianNumberJs
                  ((parseCSVLine_express (trimWS l)).getD 1 [])).getD ⟨0, 0⟩,
                power := (parseItalianNumberJs
                  ((parseCSVLine_express (trimWS l)).getD 2 [])).getD ⟨0, 0⟩ } ::
                dataLoopExpressNoGuard rest
          else dataLoopExpressNoGuard rest := rfl
    rw [stepG, stepN]
    by_cases hb1 : trimWS l = []
    · rw [if_pos hb1, if_pos hb1, ih]
    · rw [if_neg hb1, if_neg hb1]
      by_cases hb2 : 3 ≤ (parseCSVLine_express (trimWS l)).length
      · rw [if_pos hb2, if_pos hb2]
        by_cases hb3 : (parseCSVLine_express (trimWS l)).getD 0 [] = [] ∨
            isDate224 ((parseCSVLine_express (trimWS l)).getD 0 []) = false
        · rw [if_pos hb3, if_pos hb3, ih]
        · rw [if_neg hb3, if_neg hb3, if_pos ⟨gNaN _, gNaN _⟩, ih]
      · rw [if_neg hb2, if_neg hb2, ih]

/-- C10: in the Express parser, the Data-Oggi fallback fires whenever the
file date computed so far equals the current-date string, even when it came
from a valid E5 cell: if E5 yields exactly `today` and row 2 column 4 yields
a valid date `d`, the returned `fileDate` is `d`, not the E5 value. -/
theorem C10_dataoggi_overrides_e5 (today csvText d : List Char)
    (h1 : extractE5 parseCSVLine_express (splitLines csvText) = some today)
    (h2 : extractDataOggi (splitLines csvText) = some d) :
    (parseCSVData_express today csvText).fileDate = d := by
  show fileDateExpress today (splitLines csvText) = d
  unfold fileDateExpress
  rw [h1, h2]
  simp

/-- C10 witness: `C10_dataoggi_overrides_e5` on a CSV whose E5 cell is
`15/03/2024` (taken as the current date) and whose row 2 column 4 is
`01/01/2020`. -/
theorem C10_witness :
    (parseCSVData_express "15/03/2024".toList c10Csv).fileDate = "01/01/2020".toList :=
  C10_dataoggi_overrides_e5 "15/03/2024".toList c10Csv "01/01/2020".toList
    (by decide) (by decide)

/-- C8: every GET invocation of the energy-data endpoint returns either a
200 response carrying the full parsed snapshot of the fetched CSV, or a 500
response carrying a structured error body; no other status and no partial
snapshot is ever produced, in both the Netlify handler (for any path
containing `energy-data`) and the Express route. -/
theorem C8_all_or_nothing_response :
    (∀ today path : List Char, ∀ fr : FetchResult,
      containsSub "energy-data".toList path = true →
      ((netlifyHandler today path HttpMethod.GET fr).statusCode = 200 ∧
        (∃ status csv, fr = FetchResult.fetched status csv ∧
          (netlifyHandler today path HttpMethod.GET fr).body =
            RespBody.snapshot (parseCSVData_netlify today csv))) ∨
      ((netlifyHandler today path HttpMethod.GET fr).statusCode = 500 ∧
        ∃ m d, (netlifyHandler today path HttpMethod.GET fr).body =
          RespBody.errorBody m d)) ∧
    (∀ today : List Char, ∀ fr : FetchResult,
      ((expressEnergyHandler today fr).statusCode = 200 ∧
        (∃ status csv, fr = FetchResult.fetched status csv ∧
          (expressEnergyHandler today fr).body =
            RespBody.snapshot (parseCSVData_express today csv))) ∨
      ((expressEnergyHandler today fr).statusCode = 500 ∧
        ∃ m d, (expressEnergyHandler today fr).body = RespBody.errorBody m d)) := by
  constructor
  · intro today path fr hpath
    cases fr with
    | fetched status csv =>
      by_cases hok : fetchOk status = true
      · left
        have hstep : netlifyHandler today path HttpMethod.GET
            (FetchResult.fetched status csv) =
            ⟨200, RespBody.snapshot (parseCSVData_netlify today csv)⟩ := by
          unfold netlifyHandler
          rw [if_neg (by simp), if_pos ⟨hpath, rfl⟩]
          exact if_pos hok
        rw [hstep]
        exact ⟨rfl, status, csv, rfl, rfl⟩
      · right
        have hstep : netlifyHandler today path HttpMethod.GET
            (FetchResult.fetched status csv) =
            ⟨500, RespBody.errorBody "Failed to fetch energy data".toList
              (httpErrorMessage status)⟩ := by
          unfold netlifyHandler
          rw [if_neg (by simp), if_pos ⟨hpath, rfl⟩]
          exact if_neg hok
        rw [hstep]
        exact ⟨rfl, "Failed to fetch energy data".toList,
          httpErrorMessage status, rfl⟩
    | failure msg =>
      right
      have hstep : netlifyHandler today path HttpMethod.GET
          (FetchResult.failure msg) =
          ⟨500, RespBody.errorBody "Failed to fetch energy data".toList msg⟩ := by
        unfold netlifyHandler
        rw [if_neg (by simp), if_pos ⟨hpath, rfl⟩]
      rw [hstep]
      exact ⟨rfl, "Failed to fetch energy data".toList, msg, rfl⟩
  · intro today fr
    cases fr with
    | fetched status csv =>
      by_cases hok : fetchOk status = true
      · left
        have hstep : expressEnergyHandler today (FetchResult.fetched status csv) =
            ⟨200, RespBody.snapshot (parseCSVData_express today csv)⟩ := by
          unfold expressEnergyHandler
          exact (if_pos hok).trans rfl
        rw [hstep]
        exact ⟨rfl, status, csv, rfl, rfl⟩
      · right
        have hstep : expressEnergyHandler today (FetchResult.fetched status csv) =
            ⟨500, RespBody.errorBody
              "Failed to fetch energy data from Google Sheets".toList
              (fetchStatusMessage status)⟩ := by
          unfold expressEnergyHandler
          exact if_neg hok
        rw [hstep]
        exact ⟨rfl, "Failed to fetch energy data from Google Sheets".toList,
          fetchStatusMessage status, rfl⟩
    | failure msg =>
      right
      exact ⟨rfl, "Failed to fetch energy data from Google Sheets".toList, msg, rfl⟩

/-- C8 witness: `C8_all_or_nothing_response` at the path
`/.netlify/functions/api/energy-data` with a successful fetch. -/
theorem C8_witness :
    ((netlifyHandler sampleToday "/api/energy-data".toList HttpMethod.GET
        (FetchResult.fetched 200 c1Csv)).statusCode = 200 ∧
      (∃ status csv, FetchResult.fetched 200 c1Csv = FetchResult.fetched status csv ∧
        (netlifyHandler sampleToday "/api/energy-data".toList HttpMethod.GET
          (FetchResult.fetched 200 c1Csv)).body =
          RespBody.snapshot (parseCSVData_netlify sampleToday csv))) ∨
    ((netlifyHandler sampleToday "/api/energy-data".toList HttpMethod.GET
        (FetchResult.fetched 200 c1Csv)).statusCode = 500 ∧
      ∃ m d, (netlifyHandler sampleToday "/api/energy-data".toList HttpMethod.GET
        (FetchResult.fetched 200 c1Csv)).body = RespBody.errorBody m d) :=
  C8_all_or_nothing_response.1 sampleToday "/api/energy-data".toList
    (FetchResult.fetched 200 c1Csv) (by decide)

/-- C1 counterexample: on the 8-line scenario CSV, neither parser variant
returns a single record with gas 5 and power 10: the Netlify variant drops
the 3-column row `01/01/2024,10,5` entirely (it requires 4 columns), and the
Express variant keeps it but maps column 2 to gas (10) and column 3 to power
(5). -/
theorem C1_counterexample :
    (parseCSVData_netlify sampleToday c1Csv).data.map
        (fun r => (r.date, r.gas.toRat, r.power.toRat)) ≠
      [("01/01/2024".toList, (5 : ℚ), (10 : ℚ))] ∧
    (parseCSVData_express sampleToday c1Csv).data.map
        (fun r => (r.date, r.gas.toRat, r.power.toRat)) ≠
      [("01/01/2024".toList, (5 : ℚ), (10 : ℚ))] := by
  constructor
  · rw [show (parseCSVData_netlify sampleToday c1Csv).data = [] from by decide]
    simp
  · rw [show (parseCSVData_express sampleToday c1Csv).data =
        [⟨"01/01/2024".toList, ⟨10, 0⟩, ⟨5, 0⟩⟩] from by decide]
    have h10 : (DecNum.mk 10 0).toRat = 10 := by norm_num [DecNum.toRat]
    have h5 : (DecNum.mk 5 0).toRat = 5 := by norm_num [DecNum.toRat]
    simp only [List.map_cons, List.map_nil, h10, h5]
    intro h
    have := List.head_eq_of_cons_eq h
    have h2 := congrArg Prod.snd this
    have h3 := congrArg Prod.fst h2
    norm_num at h3

/-- C1 amended: for the 8-line scenario CSV and any current-date string, the
Express variant returns fileDate `15/03/2024` and exactly one record
`{date: 01/01/2024, gas: 10, power: 5}` (column 2 is gas, column 3 power),
while the Netlify variant returns the same fileDate and an empty data
sequence because the 3-column data row lacks the 4th column it requires; the
blank line 8 is dropped by both. -/
theorem C1_amended (today : List Char) :
    (parseCSVData_express today c1Csv).fileDate = "15/03/2024".toList ∧
    (parseCSVData_express today c1Csv).data.map
        (fun r => (r.date, r.gas.toRat, r.power.toRat)) =
      [("01/01/2024".toList, (10 : ℚ), (5 : ℚ))] ∧
    (parseCSVData_netlify today c1Csv).fileDate = "15/03/2024".toList ∧
    (parseCSVData_netlify today c1Csv).data = [] := by
  refine ⟨?_, ?_, ?_, show dataLoopNetlify ((splitLines c1Csv).drop 6) = []
    from by decide⟩
  · show fileDateExpress today (splitLines c1Csv) = _
    unfold fileDateExpress
    rw [show extractE5 parseCSVLine_express (splitLines c1Csv) =
        some "15/03/2024".toList from by decide,
      show extractDataOggi (splitLines c1Csv) = none from by decide]
    simp only [Option.getD_some, Option.getD_none]
    split <;> rfl
  · show (dataLoopExpress (splitLines c1Csv)).map
        (fun r => (r.date, r.gas.toRat, r.power.toRat)) = _
    rw [show dataLoopExpress (splitLines c1Csv) =
        [⟨"01/01/2024".toList, ⟨10, 0⟩, ⟨5, 0⟩⟩] from by decide]
    have h10 : (DecNum.mk 10 0).toRat = 10 := by norm_num [DecNum.toRat]
    have h5 : (DecNum.mk 5 0).toRat = 5 := by norm_num [DecNum.toRat]
    simp [h10, h5]
  · show fileDateNetlify today (splitLines c1Csv) = _
    unfold fileDateNetlify
    rw [show extractE5 parseCSVLine_netlify (splitLines c1Csv) =
        some "15/03/2024".toList from by decide]
    rfl

/-- C2 counterexample: the row `01/01/2024,1,2` (claimed kept) is dropped by
the Netlify assembler, and the row `abc,1,2` — non-blank, 3 tokenized
fields, non-blank leading field, so kept according to the claim's skip
characterization — is dropped by the Express assembler. -/
theorem C2_counterexample :
    dataLoopNetlify ["01/01/2024,1,2".toList] = [] ∧
    dataLoopExpress ["abc,1,2".toList] = [] ∧
    trimWS "abc,1,2".toList = "abc,1,2".toList ∧
    (parseCSVLine_express "abc,1,2".toList).length = 3 ∧
    (parseCSVLine_express "abc,1,2".toList).getD 0 [] = "abc".toList ∧
    trimWS ((parseCSVLine_netlify "01/01/2024,1,2".toList).getD 0 []) =
      "01/01/2024".toList := by
  decide

/-- C2 amended: each assembler emits a record exactly when its own keep
condition holds and never errors — Netlify keeps a row iff the line is
non-blank, at least 4 fields tokenize and the leading field is non-blank;
Express keeps a row iff the trimmed line is non-empty, at least 3 fields
tokenize and the leading field is non-empty and matches `DD/MM/YYYY`
exactly.  A 2-field row is dropped by both; `01/01/2024,1,2` is kept by the
Express assembler (as `{gas: 1, power: 2}`) but dropped by the Netlify
assembler, which keeps `01/01/2024,1,2,3` instead (as `{gas: 2, power:
1}`). -/
theorem C2_amended :
    (∀ line rest, dataLoopNetlify (line :: rest) =
        (if netlifyKeeps line then [netlifyRecordOf line] else []) ++
          dataLoopNetlify rest) ∧
    (∀ l rest, dataLoopExpress (l :: rest) =
        (if expressKeeps l then [expressRecordOf l] else []) ++
          dataLoopExpress rest) ∧
    dataLoopNetlify ["a,1".toList] = [] ∧
    dataLoopExpress ["a,1".toList] = [] ∧
    dataLoopExpress ["01/01/2024,1,2".toList] =
      [⟨"01/01/2024".toList, ⟨1, 0⟩, ⟨2, 0⟩⟩] ∧
    dataLoopNetlify ["01/01/2024,1,2".toList] = [] ∧
    dataLoopNetlify ["01/01/2024,1,2,3".toList] =
      [⟨"01/01/2024".toList, ⟨2, 0⟩, ⟨1, 0⟩⟩] :=
  ⟨dataLoopNetlify_cons, dataLoopExpress_cons, by decide, by decide, by decide,
    by decide, by decide⟩

/-- C3 counterexample: on a CSV with no valid date at the designated E5 cell
but a valid date `01/01/2020` at row 2 column 4, the Express variant's
fileDate is that row-2 value, not the current-date string. -/
theorem C3_counterexample :
    extractE5 parseCSVLine_express (splitLines c3Csv) = none ∧
    (parseCSVData_express sampleToday c3Csv).fileDate = "01/01/2020".toList ∧
    "01/01/2020".toList ≠ sampleToday := by
  decide

/-- C3 amended: when the E5 extraction (5th line, 5th field, stripped of
quotes and whitespace, matching `D{1,2}/D{1,2}/DDDD`) succeeds with value
`v`, the Netlify fileDate is `v`, and so is the Express fileDate provided
`v` differs from the current-date string; when it fails, the Netlify
fileDate falls back to the current date, while the Express fileDate falls
back first to the row-2 column-4 "Data Oggi" cell and only to the current
date when that also lacks a valid date. -/
theorem C3_amended :
    (∀ today csvText v : List Char,
      extractE5 parseCSVLine_netlify (splitLines csvText) = some v →
      (parseCSVData_netlify today csvText).fileDate = v) ∧
    (∀ today csvText : List Char,
      extractE5 parseCSVLine_netlify (splitLines csvText) = none →
      (parseCSVData_netlify today csvText).fileDate = today) ∧
    (∀ today csvText v : List Char,
      extractE5 parseCSVLine_express (splitLines csvText) = some v → v ≠ today →
      (parseCSVData_express today csvText).fileDate = v) ∧
    (∀ today csvText d : List Char,
      extractE5 parseCSVLine_express (splitLines csvText) = none →
      extractDataOggi (splitLines csvText) = some d →
      (parseCSVData_express today csvText).fileDate = d) ∧
    (∀ today csvText : List Char,
      extractE5 parseCSVLine_express (splitLines csvText) = none →
      extractDataOggi (splitLines csvText) = none →
      (parseCSVData_express today csvText).fileDate = today) := by
  refine ⟨?_, ?_, ?_, ?_, ?_⟩
  · intro today csvText v h
    show fileDateNetlify today (splitLines csvText) = v
    unfold fileDateNetlify
    rw [h]
    rfl
  · intro today csvText h
    show fileDateNetlify today (splitLines csvText) = today
    unfold fileDateNetlify
    rw [h]
    rfl
  · intro today csvText v h hne
    show fileDateExpress today (splitLines csvText) = v
    unfold fileDateExpress
    rw [h]
    simp only [Option.getD_some]
    rw [if_neg hne]
  · intro today csvText d h1 h2
    show fileDateExpress today (splitLines csvText) = d
    unfold fileDateExpress
    rw [h1]
    simp only [Option.getD_none, if_true]
    rw [h2]
    rfl
  · intro today csvText h1 h2
    show fileDateExpress today (splitLines csvText) = today
    unfold fileDateExpress
    rw [h1]
    simp only [Option.getD_none, if_true]
    rw [h2]
    rfl

/-- C3 witness: `C3_amended` applied to concrete CSVs — a valid E5 cell
(`c3CsvA`), no dates at all (`c3CsvB`), and a missing E5 with a valid Data
Oggi cell (`c3Csv`). -/
theorem C3_witness :
    (parseCSVData_netlify sampleToday c3CsvA).fileDate = "15/03/2024".toList ∧
    (parseCSVData_netlify sampleToday c3CsvB).fileDate = sampleToday ∧
    (parseCSVData_express sampleToday c3CsvA).fileDate = "15/03/2024".toList ∧
    (parseCSVData_express sampleToday c3Csv).fileDate = "01/01/2020".toList ∧
    (parseCSVData_express sampleToday c3CsvB).fileDate = sampleToday :=
  ⟨C3_amended.1 sampleToday c3CsvA _ (by decide),
   C3_amended.2.1 sampleToday c3CsvB (by decide),
   C3_amended.2.2.1 sampleToday c3CsvA _ (by decide) (by decide),
   C3_amended.2.2.2.1 sampleToday c3Csv _ (by decide) (by decide),
   C3_amended.2.2.2.2 sampleToday c3CsvB (by decide) (by decide)⟩
